import Mathlib

/-!
Verification of the startup/configuration engine of the aws-resource-exporter
(`main.go`): config defaulting, error handling of the config load, collector
setup with fail-fast session construction, and the `run` entry point.

Modelling conventions:
* `time.Duration` is an `Int` counting nanoseconds.
* Pointer fields (`*time.Duration`) are `Option Duration` (`none` = nil).
* Reading and YAML-unmarshalling the config file are external effects; they
  are modelled by a `ReadResult`: either the read fails, or it succeeds and
  yields the `Config` left in the variable by `yaml.Unmarshal` together with
  a flag recording whether the unmarshal reported an error (the Go code
  discards that error, and so does the model).  A file that fails to
  unmarshal entirely leaves the zero-value `Config` behind.
* `session.Must(session.NewSession(...))` panics on failure; the success of
  the session constructor for a region is modelled by a `sessOk` predicate,
  and a panic is an explicit outcome.
-/

/-- `time.Duration`: a signed count of nanoseconds. -/
abbrev Duration := Int

/-- One second, in nanoseconds (`time.Second`). -/
def second : Duration := 1000000000

/-- `DEFAULT_TIMEOUT = 30 * time.Second` (main.go line 29). -/
def DEFAULT_TIMEOUT : Duration := 30 * second

/-- `CONFIG_FILE_PATH` (main.go line 30). -/
def CONFIG_FILE_PATH : String := "./aws-resource-exporter-config.yaml"

/-- `BaseConfig` (main.go lines 44-48). -/
structure BaseConfig where
  enabled : Bool
  interval : Option Duration
  cacheTTL : Option Duration
deriving DecidableEq

/-- `RDSConfig` (main.go lines 50-53). -/
structure RDSConfig where
  base : BaseConfig
  regions : List String
deriving DecidableEq

/-- `VPCConfig` (main.go lines 55-59). -/
structure VPCConfig where
  base : BaseConfig
  timeout : Option Duration
  regions : List String
deriving DecidableEq

/-- `Route53Config` (main.go lines 61-65). -/
structure Route53Config where
  base : BaseConfig
  timeout : Option Duration
  region : String
deriving DecidableEq

/-- `EC2Config` (main.go lines 67-71). -/
structure EC2Config where
  base : BaseConfig
  timeout : Option Duration
  regions : List String
deriving DecidableEq

/-- `Config` (main.go lines 73-78). -/
structure Config where
  rdsConfig : RDSConfig
  vpcConfig : VPCConfig
  route53Config : Route53Config
  ec2Config : EC2Config
deriving DecidableEq

/-- The Go zero value of `BaseConfig`: flag false, nil pointers. -/
def zeroBase : BaseConfig := ⟨false, none, none⟩

/-- The Go zero value of `Config` (`var config Config`, main.go line 85). -/
def zeroConfig : Config :=
  ⟨⟨zeroBase, []⟩, ⟨zeroBase, none, []⟩, ⟨zeroBase, none, ""⟩, ⟨zeroBase, none, []⟩⟩

/-- Outcome of `ioutil.ReadFile` followed by `yaml.Unmarshal` (main.go lines
86-91).  `failure` models a read error.  `success parsed parseOk` models a
successful read: `parsed` is the `Config` left in the variable by
`yaml.Unmarshal` and `parseOk` records whether the unmarshal succeeded (the
Go code discards this error; a contents that fails to unmarshal entirely
leaves `zeroConfig`). -/
inductive ReadResult where
  | failure
  | success (parsed : Config) (parseOk : Bool)
deriving DecidableEq

/-- Whether the modelled unmarshal reported an error. -/
def ReadResult.parseFailed : ReadResult → Bool
  | .failure => false
  | .success _ ok => !ok

/-- The per-field defaulting pattern `if f == nil { f = durationPtr(d) }`
(main.go lines 93-127). -/
def defDur (v : Option Duration) (d : Duration) : Option Duration :=
  match v with
  | none => some d
  | some x => some x

/-- The defaulting block of `loadExporterConfiguration` (main.go lines
93-127): cacheTTL defaults to 35s, interval to 15s, timeout (vpc, route53,
ec2) to 10s; every other field is untouched. -/
def applyDefaults (c : Config) : Config :=
  { rdsConfig := { c.rdsConfig with base :=
      { c.rdsConfig.base with
        cacheTTL := defDur c.rdsConfig.base.cacheTTL (35 * second),
        interval := defDur c.rdsConfig.base.interval (15 * second) } },
    vpcConfig := { c.vpcConfig with
      base :=
        { c.vpcConfig.base with
          cacheTTL := defDur c.vpcConfig.base.cacheTTL (35 * second),
          interval := defDur c.vpcConfig.base.interval (15 * second) },
      timeout := defDur c.vpcConfig.timeout (10 * second) },
    route53Config := { c.route53Config with
      base :=
        { c.route53Config.base with
          cacheTTL := defDur c.route53Config.base.cacheTTL (35 * second),
          interval := defDur c.route53Config.base.interval (15 * second) },
      timeout := defDur c.route53Config.timeout (10 * second) },
    ec2Config := { c.ec2Config with
      base :=
        { c.ec2Config.base with
          cacheTTL := defDur c.ec2Config.base.cacheTTL (35 * second),
          interval := defDur c.ec2Config.base.interval (15 * second) },
      timeout := defDur c.ec2Config.timeout (10 * second) } }

/-- `loadExporterConfiguration` (main.go lines 84-129).  `fs` models the file
system: what reading a given path yields.  A read error is fatal; the
unmarshal error is discarded (line 91) and defaulting is applied to whatever
the unmarshal left behind. -/
def loadExporterConfiguration (fs : String → ReadResult) (configFile : String) :
    Except String Config :=
  match fs configFile with
  | .failure => .error ("Could not load configuration file: " ++ configFile)
  | .success parsed _ => .ok (applyDefaults parsed)

/-- `defDur` never returns `none`. -/
theorem defDur_ne_none (v : Option Duration) (d : Duration) : defDur v d ≠ none := by
  cases v <;> simp [defDur]

/-- `defDur` computes `Option.getD` wrapped in `some`. -/
theorem defDur_eq_getD (v : Option Duration) (d : Duration) :
    defDur v d = some (v.getD d) := by
  cases v <;> rfl

/-- `defDur` keeps a present value. -/
theorem defDur_of_ne_none (v : Option Duration) (d : Duration) (h : v ≠ none) :
    defDur v d = v := by
  cases v with
  | none => exact absurd rfl h
  | some x => rfl

/-- Defaulting an already-defaulted field changes nothing. -/
theorem defDur_defDur (v : Option Duration) (d : Duration) :
    defDur (defDur v d) d = defDur v d := by
  cases v <;> rfl

/-- Claim C1: for every parsed configuration, `loadExporterConfiguration`
returns it with defaults applied, and the defaulting sets `cacheTTL` to 35s
when absent, `interval` to 15s when absent, and `timeout` (vpc, route53, ec2)
to 10s when absent, keeping any configured value (expressed via `getD`). -/
theorem C1_defaulting (fs : String → ReadResult) (cf : String) (p : Config) (b : Bool)
    (h : fs cf = .success p b) :
    loadExporterConfiguration fs cf = .ok (applyDefaults p) ∧
    (applyDefaults p).rdsConfig.base.cacheTTL
      = some (p.rdsConfig.base.cacheTTL.getD (35 * second)) ∧
    (applyDefaults p).vpcConfig.base.cacheTTL
      = some (p.vpcConfig.base.cacheTTL.getD (35 * second)) ∧
    (applyDefaults p).route53Config.base.cacheTTL
      = some (p.route53Config.base.cacheTTL.getD (35 * second)) ∧
    (applyDefaults p).ec2Config.base.cacheTTL
      = some (p.ec2Config.base.cacheTTL.getD (35 * second)) ∧
    (applyDefaults p).rdsConfig.base.interval
      = some (p.rdsConfig.base.interval.getD (15 * second)) ∧
    (applyDefaults p).vpcConfig.base.interval
      = some (p.vpcConfig.base.interval.getD (15 * second)) ∧
    (applyDefaults p).route53Config.base.interval
      = some (p.route53Config.base.interval.getD (15 * second)) ∧
    (applyDefaults p).ec2Config.base.interval
      = some (p.ec2Config.base.interval.getD (15 * second)) ∧
    (applyDefaults p).vpcConfig.timeout
      = some (p.vpcConfig.timeout.getD (10 * second)) ∧
    (applyDefaults p).route53Config.timeout
      = some (p.route53Config.timeout.getD (10 * second)) ∧
    (applyDefaults p).ec2Config.timeout
      = some (p.ec2Config.timeout.getD (10 * second)) := by
  refine ⟨?_, ?_, ?_, ?_, ?_, ?_, ?_, ?_, ?_, ?_, ?_, ?_⟩
  · simp [loadExporterConfiguration, h]
  all_goals simp [applyDefaults, defDur_eq_getD]

/-- Witness for C1 at a concrete file system: an absent rds cacheTTL becomes
35s and a configured vpc interval of 60s is kept. -/
theorem C1_defaulting_witness :
    loadExporterConfiguration (fun _ => .success
        { zeroConfig with vpcConfig := { zeroConfig.vpcConfig with base :=
            { zeroBase with interval := some (60 * second) } } } true) "conf.yaml"
      = .ok (applyDefaults
        { zeroConfig with vpcConfig := { zeroConfig.vpcConfig with base :=
            { zeroBase with interval := some (60 * second) } } }) ∧
    (applyDefaults
        { zeroConfig with vpcConfig := { zeroConfig.vpcConfig with base :=
            { zeroBase with interval := some (60 * second) } } }).rdsConfig.base.cacheTTL
      = some (35 * second) ∧
    (applyDefaults
        { zeroConfig with vpcConfig := { zeroConfig.vpcConfig with base :=
            { zeroBase with interval := some (60 * second) } } }).vpcConfig.base.interval
      = some (60 * second) := by
  have h := C1_defaulting (fun _ => .success
      { zeroConfig with vpcConfig := { zeroConfig.vpcConfig with base :=
          { zeroBase with interval := some (60 * second) } } } true) "conf.yaml"
      { zeroConfig with vpcConfig := { zeroConfig.vpcConfig with base :=
          { zeroBase with interval := some (60 * second) } } } true rfl
  exact ⟨h.1, by rw [h.2.1]; rfl, by rw [h.2.2.2.2.2.2.1]; rfl⟩

/-- A file system holding one readable file whose contents fail to unmarshal
entirely: the unmarshal leaves the zero-value `Config` and reports an error
(which main.go line 91 discards). -/
def fsBadParse : String → ReadResult := fun _ => .success zeroConfig false

/-- Claim C2, counterexample: the claim says `loadExporterConfiguration`
returns an error if and only if the file cannot be read OR is not valid
structured data.  On a readable file that is not valid structured data the
unmarshal error is discarded (main.go line 91) and the load succeeds, so the
right-to-left direction of the iff fails. -/
theorem C2_counterexample :
    ¬ (((loadExporterConfiguration fsBadParse "conf.yaml").isOk = false) ↔
        (fsBadParse "conf.yaml" = .failure ∨
         (fsBadParse "conf.yaml").parseFailed = true)) := by
  intro h
  have : (loadExporterConfiguration fsBadParse "conf.yaml").isOk = false :=
    h.mpr (Or.inr rfl)
  simp [loadExporterConfiguration, fsBadParse, Except.isOk, Except.toBool] at this

/-- Claim C2, amended: `loadExporterConfiguration` returns an error if and
only if the configuration file cannot be read; an unmarshal (parse) error is
never fatal — it is discarded and a defaulted `Config` is still returned. -/
theorem C2_amended (fs : String → ReadResult) (cf : String) :
    (∃ e, loadExporterConfiguration fs cf = .error e) ↔ fs cf = .failure := by
  cases h : fs cf <;> simp [loadExporterConfiguration, h]

/-- Claim C4: after a successful load, the interval and cacheTTL pointers of
all four resource-kind configs are non-nil, for every input whose read
succeeds, including files that fail to parse. -/
theorem C4_non_nil (fs : String → ReadResult) (cf : String) (c : Config)
    (h : loadExporterConfiguration fs cf = .ok c) :
    c.rdsConfig.base.interval ≠ none ∧ c.rdsConfig.base.cacheTTL ≠ none ∧
    c.vpcConfig.base.interval ≠ none ∧ c.vpcConfig.base.cacheTTL ≠ none ∧
    c.route53Config.base.interval ≠ none ∧ c.route53Config.base.cacheTTL ≠ none ∧
    c.ec2Config.base.interval ≠ none ∧ c.ec2Config.base.cacheTTL ≠ none := by
  cases hrr : fs cf with
  | failure => simp [loadExporterConfiguration, hrr] at h
  | success p b =>
    simp only [loadExporterConfiguration, hrr] at h
    obtain rfl : applyDefaults p = c := by injection h
    refine ⟨?_, ?_, ?_, ?_, ?_, ?_, ?_, ?_⟩ <;>
      simp [applyDefaults, defDur_ne_none]

/-- Witness for C4 at a concrete unparseable file. -/
theorem C4_non_nil_witness :
    (applyDefaults zeroConfig).rdsConfig.base.interval ≠ none ∧
    (applyDefaults zeroConfig).rdsConfig.base.cacheTTL ≠ none ∧
    (applyDefaults zeroConfig).vpcConfig.base.interval ≠ none ∧
    (applyDefaults zeroConfig).vpcConfig.base.cacheTTL ≠ none ∧
    (applyDefaults zeroConfig).route53Config.base.interval ≠ none ∧
    (applyDefaults zeroConfig).route53Config.base.cacheTTL ≠ none ∧
    (applyDefaults zeroConfig).ec2Config.base.interval ≠ none ∧
    (applyDefaults zeroConfig).ec2Config.base.cacheTTL ≠ none :=
  C4_non_nil fsBadParse "conf.yaml" (applyDefaults zeroConfig) rfl

/-- Claim C5: defaulting is deterministic and idempotent — loading a file
that parses to an already-defaulted configuration yields the same result as
loading the original, and applying the defaulting step twice equals applying
it once. -/
theorem C5_idempotent (fs fs2 : String → ReadResult) (cf cf2 : String)
    (p : Config) (b b2 : Bool)
    (h : fs cf = .success p b) (h2 : fs2 cf2 = .success (applyDefaults p) b2) :
    loadExporterConfiguration fs2 cf2 = loadExporterConfiguration fs cf ∧
    applyDefaults (applyDefaults p) = applyDefaults p := by
  have hidem : applyDefaults (applyDefaults p) = applyDefaults p := by
    obtain ⟨⟨⟨e1, i1, t1⟩, r1⟩, ⟨⟨e2, i2, t2⟩, o2, r2⟩,
      ⟨⟨e3, i3, t3⟩, o3, r3⟩, ⟨⟨e4, i4, t4⟩, o4, r4⟩⟩ := p
    simp [applyDefaults, defDur_defDur]
  exact ⟨by simp [loadExporterConfiguration, h, h2, hidem], hidem⟩

/-- Witness for C5 at a concrete configuration. -/
theorem C5_idempotent_witness :
    loadExporterConfiguration (fun _ => .success (applyDefaults zeroConfig) true) "b.yaml"
      = loadExporterConfiguration (fun _ => .success zeroConfig true) "a.yaml" ∧
    applyDefaults (applyDefaults zeroConfig) = applyDefaults zeroConfig :=
  C5_idempotent (fun _ => .success zeroConfig true)
    (fun _ => .success (applyDefaults zeroConfig) true) "a.yaml" "b.yaml"
    zeroConfig true true rfl rfl

/-- Claim C6: defaulting is framed per field — enabled flags, region fields
and every present (non-nil) duration field are left unchanged; only absent
duration fields are written. -/
theorem C6_frame (p : Config) :
    (applyDefaults p).rdsConfig.base.enabled = p.rdsConfig.base.enabled ∧
    (applyDefaults p).vpcConfig.base.enabled = p.vpcConfig.base.enabled ∧
    (applyDefaults p).route53Config.base.enabled = p.route53Config.base.enabled ∧
    (applyDefaults p).ec2Config.base.enabled = p.ec2Config.base.enabled ∧
    (applyDefaults p).rdsConfig.regions = p.rdsConfig.regions ∧
    (applyDefaults p).vpcConfig.regions = p.vpcConfig.regions ∧
    (applyDefaults p).route53Config.region = p.route53Config.region ∧
    (applyDefaults p).ec2Config.regions = p.ec2Config.regions ∧
    (p.rdsConfig.base.cacheTTL ≠ none →
      (applyDefaults p).rdsConfig.base.cacheTTL = p.rdsConfig.base.cacheTTL) ∧
    (p.rdsConfig.base.interval ≠ none →
      (applyDefaults p).rdsConfig.base.interval = p.rdsConfig.base.interval) ∧
    (p.vpcConfig.base.cacheTTL ≠ none →
      (applyDefaults p).vpcConfig.base.cacheTTL = p.vpcConfig.base.cacheTTL) ∧
    (p.vpcConfig.base.interval ≠ none →
      (applyDefaults p).vpcConfig.base.interval = p.vpcConfig.base.interval) ∧
    (p.vpcConfig.timeout ≠ none →
      (applyDefaults p).vpcConfig.timeout = p.vpcConfig.timeout) ∧
    (p.route53Config.base.cacheTTL ≠ none →
      (applyDefaults p).route53Config.base.cacheTTL = p.route53Config.base.cacheTTL) ∧
    (p.route53Config.base.interval ≠ none →
      (applyDefaults p).route53Config.base.interval = p.route53Config.base.interval) ∧
    (p.route53Config.timeout ≠ none →
      (applyDefaults p).route53Config.timeout = p.route53Config.timeout) ∧
    (p.ec2Config.base.cacheTTL ≠ none →
      (applyDefaults p).ec2Config.base.cacheTTL = p.ec2Config.base.cacheTTL) ∧
    (p.ec2Config.base.interval ≠ none →
      (applyDefaults p).ec2Config.base.interval = p.ec2Config.base.interval) ∧
    (p.ec2Config.timeout ≠ none →
      (applyDefaults p).ec2Config.timeout = p.ec2Config.timeout) := by
  refine ⟨?_, ?_, ?_, ?_, ?_, ?_, ?_, ?_, ?_, ?_, ?_, ?_, ?_, ?_, ?_, ?_, ?_, ?_, ?_⟩ <;>
    first
      | (intro h; simp [applyDefaults, defDur_of_ne_none _ _ h])
      | simp [applyDefaults]

/-- Witness for C6 at a concrete configuration in which every duration field
is present (the fully defaulted zero config). -/
theorem C6_frame_witness :
    (applyDefaults (applyDefaults zeroConfig)).rdsConfig.base.enabled
      = (applyDefaults zeroConfig).rdsConfig.base.enabled ∧
    (applyDefaults (applyDefaults zeroConfig)).vpcConfig.base.enabled
      = (applyDefaults zeroConfig).vpcConfig.base.enabled ∧
    (applyDefaults (applyDefaults zeroConfig)).route53Config.base.enabled
      = (applyDefaults zeroConfig).route53Config.base.enabled ∧
    (applyDefaults (applyDefaults zeroConfig)).ec2Config.base.enabled
      = (applyDefaults zeroConfig).ec2Config.base.enabled ∧
    (applyDefaults (applyDefaults zeroConfig)).rdsConfig.regions
      = (applyDefaults zeroConfig).rdsConfig.regions ∧
    (applyDefaults (applyDefaults zeroConfig)).vpcConfig.regions
      = (applyDefaults zeroConfig).vpcConfig.regions ∧
    (applyDefaults (applyDefaults zeroConfig)).route53Config.region
      = (applyDefaults zeroConfig).route53Config.region ∧
    (applyDefaults (applyDefaults zeroConfig)).ec2Config.regions
      = (applyDefaults zeroConfig).ec2Config.regions ∧
    (applyDefaults (applyDefaults zeroConfig)).rdsConfig.base.cacheTTL
      = (applyDefaults zeroConfig).rdsConfig.base.cacheTTL ∧
    (applyDefaults (applyDefaults zeroConfig)).rdsConfig.base.interval
      = (applyDefaults zeroConfig).rdsConfig.base.interval ∧
    (applyDefaults (applyDefaults zeroConfig)).vpcConfig.base.cacheTTL
      = (applyDefaults zeroConfig).vpcConfig.base.cacheTTL ∧
    (applyDefaults (applyDefaults zeroConfig)).vpcConfig.base.interval
      = (applyDefaults zeroConfig).vpcConfig.base.interval ∧
    (applyDefaults (applyDefaults zeroConfig)).vpcConfig.timeout
      = (applyDefaults zeroConfig).vpcConfig.timeout ∧
    (applyDefaults (applyDefaults zeroConfig)).route53Config.base.cacheTTL
      = (applyDefaults zeroConfig).route53Config.base.cacheTTL ∧
    (applyDefaults (applyDefaults zeroConfig)).route53Config.base.interval
      = (applyDefaults zeroConfig).route53Config.base.interval ∧
    (applyDefaults (applyDefaults zeroConfig)).route53Config.timeout
      = (applyDefaults zeroConfig).route53Config.timeout ∧
    (applyDefaults (applyDefaults zeroConfig)).ec2Config.base.cacheTTL
      = (applyDefaults zeroConfig).ec2Config.base.cacheTTL ∧
    (applyDefaults (applyDefaults zeroConfig)).ec2Config.base.interval
      = (applyDefaults zeroConfig).ec2Config.base.interval ∧
    (applyDefaults (applyDefaults zeroConfig)).ec2Config.timeout
      = (applyDefaults zeroConfig).ec2Config.timeout := by
  obtain ⟨h1, h2, h3, h4, h5, h6, h7, h8, h9, h10, h11, h12, h13, h14, h15, h16,
    h17, h18, h19⟩ := C6_frame (applyDefaults zeroConfig)
  exact ⟨h1, h2, h3, h4, h5, h6, h7, h8, h9 (by decide), h10 (by decide),
    h11 (by decide), h12 (by decide), h13 (by decide), h14 (by decide),
    h15 (by decide), h16 (by decide), h17 (by decide), h18 (by decide),
    h19 (by decide)⟩

/-- The collectors that can be registered by `setupCollectors` (main.go lines
149-150, 161-162, 173-174, 181-182). -/
inductive Collector where
  | vpcExporter
  | rdsExporter
  | ec2Exporter
  | route53Exporter
deriving DecidableEq

/-- The session-construction loop of `setupCollectors`: one
`session.Must(session.NewSession(...))` per region, panicking (`none`) at the
first region whose construction fails.  `sessOk` says whether constructing a
session for a region succeeds; the returned sessions are identified by their
regions. -/
def mkSessions (sessOk : String → Bool) : List String → Option (List String)
  | [] => some []
  | r :: rest =>
    if sessOk r then (mkSessions sessOk rest).map (fun s => r :: s) else none

/-- The collectors registered and the refresh loops started by
`setupCollectors`: `collectors` mirrors the `collectors` slice, `loops` the
set of `go ...CollectLoop()` statements executed. -/
structure SetupResult where
  collectors : List Collector
  loops : List Collector
deriving DecidableEq

/-- One enabled-guarded block of `setupCollectors` (e.g. main.go lines
143-152): when the kind is enabled, build one session per region (panicking
on failure), append the kind's exporter to the collectors and start its
collect loop; when disabled, do nothing. -/
def collectStep (sessOk : String → Bool) (enabled : Bool) (regions : List String)
    (k : Collector) (st : SetupResult) : Option SetupResult :=
  if enabled then
    match mkSessions sessOk regions with
    | none => none
    | some _ => some ⟨st.collectors ++ [k], st.loops ++ [k]⟩
  else some st

/-- The four enabled-guarded blocks of `setupCollectors` in source order:
vpc, rds, ec2, route53 (main.go lines 143-184); route53 builds exactly one
session from its single configured region (line 179-180). -/
def buildCollectors (sessOk : String → Bool) (cfg : Config) : Option SetupResult :=
  (((collectStep sessOk cfg.vpcConfig.base.enabled cfg.vpcConfig.regions
      .vpcExporter ⟨[], []⟩).bind
    (collectStep sessOk cfg.rdsConfig.base.enabled cfg.rdsConfig.regions
      .rdsExporter)).bind
    (collectStep sessOk cfg.ec2Config.base.enabled cfg.ec2Config.regions
      .ec2Exporter)).bind
    (collectStep sessOk cfg.route53Config.base.enabled [cfg.route53Config.region]
      .route53Exporter)

/-- Outcome of `setupCollectors` (main.go lines 131-187): a config-load
error is returned to the caller; a `session.Must` panic kills the process;
otherwise the registered collectors and started loops are produced. -/
inductive SetupOutcome where
  | configError (msg : String)
  | panicked
  | ok (res : SetupResult)
deriving DecidableEq

/-- `setupCollectors` (main.go lines 131-187). -/
def setupCollectors (sessOk : String → Bool) (fs : String → ReadResult)
    (configFile : String) : SetupOutcome :=
  match loadExporterConfiguration fs configFile with
  | .error e => .configError e
  | .ok cfg =>
    match buildCollectors sessOk cfg with
    | none => .panicked
    | some res => .ok res

/-- The enabled flag of the kind a collector belongs to. -/
def enabledOf (cfg : Config) : Collector → Bool
  | .vpcExporter => cfg.vpcConfig.base.enabled
  | .rdsExporter => cfg.rdsConfig.base.enabled
  | .ec2Exporter => cfg.ec2Config.base.enabled
  | .route53Exporter => cfg.route53Config.base.enabled

/-- The regions for which the kind of a collector builds sessions; route53
uses its single configured region. -/
def regionsOf (cfg : Config) : Collector → List String
  | .vpcExporter => cfg.vpcConfig.regions
  | .rdsExporter => cfg.rdsConfig.regions
  | .ec2Exporter => cfg.ec2Config.regions
  | .route53Exporter => [cfg.route53Config.region]

/-- A successful `collectStep` only adds its own kind, and only when the
kind is enabled. -/
theorem collectStep_mem (sessOk : String → Bool) (en : Bool) (regions : List String)
    (kAdded : Collector) (st st2 : SetupResult) (k : Collector)
    (h : collectStep sessOk en regions kAdded st = some st2)
    (hm : k ∈ st2.collectors ∨ k ∈ st2.loops) :
    (k ∈ st.collectors ∨ k ∈ st.loops) ∨ (k = kAdded ∧ en = true) := by
  unfold collectStep at h
  by_cases hen : en
  · rw [if_pos hen] at h
    cases hms : mkSessions sessOk regions with
    | none => rw [hms] at h; exact absurd h (by simp)
    | some s =>
      rw [hms] at h
      injection h with h
      subst h
      rcases hm with hm | hm <;>
        simp only [List.mem_append, List.mem_singleton] at hm <;>
        rcases hm with hm | hm
      · exact Or.inl (Or.inl hm)
      · exact Or.inr ⟨hm, hen⟩
      · exact Or.inl (Or.inr hm)
      · exact Or.inr ⟨hm, hen⟩
  · rw [if_neg hen] at h
    injection h with h
    subst h
    exact Or.inl hm

/-- Every collector registered (and every loop started) by a successful
`buildCollectors` belongs to an enabled kind. -/
theorem mem_buildCollectors (sessOk : String → Bool) (cfg : Config)
    (res : SetupResult) (k : Collector)
    (h : buildCollectors sessOk cfg = some res)
    (hm : k ∈ res.collectors ∨ k ∈ res.loops) :
    enabledOf cfg k = true := by
  unfold buildCollectors at h
  cases h1 : collectStep sessOk cfg.vpcConfig.base.enabled cfg.vpcConfig.regions
      Collector.vpcExporter ⟨[], []⟩ with
  | none => rw [h1] at h; simp at h
  | some s1 =>
  rw [h1, Option.some_bind] at h
  cases h2 : collectStep sessOk cfg.rdsConfig.base.enabled cfg.rdsConfig.regions
      Collector.rdsExporter s1 with
  | none => rw [h2] at h; simp at h
  | some s2 =>
  rw [h2, Option.some_bind] at h
  cases h3 : collectStep sessOk cfg.ec2Config.base.enabled cfg.ec2Config.regions
      Collector.ec2Exporter s2 with
  | none => rw [h3] at h; simp at h
  | some s3 =>
  rw [h3, Option.some_bind] at h
  rcases collectStep_mem _ _ _ _ _ _ _ h hm with hm3 | ⟨rfl, hen⟩
  · rcases collectStep_mem _ _ _ _ _ _ _ h3 hm3 with hm2 | ⟨rfl, hen⟩
    · rcases collectStep_mem _ _ _ _ _ _ _ h2 hm2 with hm1 | ⟨rfl, hen⟩
      · rcases collectStep_mem _ _ _ _ _ _ _ h1 hm1 with hm0 | ⟨rfl, hen⟩
        · simp at hm0
        · exact hen
      · exact hen
    · exact hen
  · exact hen

/-- Claim C3: for every resource kind whose enabled flag is false in the
loaded configuration, `setupCollectors` neither registers a collector for
that kind nor starts its refresh loop. -/
theorem C3_disabled_kind_inert (sessOk : String → Bool) (fs : String → ReadResult)
    (cf : String) (cfg : Config) (res : SetupResult) (k : Collector)
    (hload : loadExporterConfiguration fs cf = .ok cfg)
    (hsetup : setupCollectors sessOk fs cf = .ok res)
    (hdis : enabledOf cfg k = false) :
    k ∉ res.collectors ∧ k ∉ res.loops := by
  unfold setupCollectors at hsetup
  rw [hload] at hsetup
  simp only at hsetup
  cases hb : buildCollectors sessOk cfg with
  | none => rw [hb] at hsetup; exact absurd hsetup (by simp)
  | some r =>
    rw [hb] at hsetup
    simp only at hsetup
    injection hsetup with hsetup
    subst hsetup
    constructor <;> intro hmem
    · exact absurd (mem_buildCollectors sessOk cfg r k hb (Or.inl hmem))
        (by rw [hdis]; simp)
    · exact absurd (mem_buildCollectors sessOk cfg r k hb (Or.inr hmem))
        (by rw [hdis]; simp)

/-- Witness for C3: with every kind disabled (zero config), the vpc exporter
is neither registered nor looped. -/
theorem C3_disabled_kind_inert_witness :
    Collector.vpcExporter ∉ (SetupResult.mk [] []).collectors ∧
    Collector.vpcExporter ∉ (SetupResult.mk [] []).loops :=
  C3_disabled_kind_inert (fun _ => true) fsBadParse "conf.yaml"
    (applyDefaults zeroConfig) ⟨[], []⟩ Collector.vpcExporter rfl rfl rfl

/-- If any configured region's session construction fails, the session loop
panics (`session.Must`). -/
theorem mkSessions_eq_none (sessOk : String → Bool) (regions : List String)
    (r : String) (hr : r ∈ regions) (hf : sessOk r = false) :
    mkSessions sessOk regions = none := by
  induction regions with
  | nil => cases hr
  | cons head rest ih =>
    rcases List.mem_cons.mp hr with rfl | hmem
    · simp [mkSessions, hf]
    · unfold mkSessions
      by_cases hh : sessOk head
      · simp [hh, ih hmem]
      · simp [hh]

/-- An enabled kind whose session loop panics makes its `collectStep`
panic, whatever state it is reached in. -/
theorem collectStep_none (sessOk : String → Bool) (regions : List String)
    (k : Collector) (st : SetupResult)
    (hms : mkSessions sessOk regions = none) :
    collectStep sessOk true regions k st = none := by
  simp [collectStep, hms]

/-- If any enabled kind has a region whose session construction fails,
`buildCollectors` panics as a whole. -/
theorem buildCollectors_none (sessOk : String → Bool) (cfg : Config)
    (k : Collector) (region : String)
    (hen : enabledOf cfg k = true) (hmem : region ∈ regionsOf cfg k)
    (hf : sessOk region = false) :
    buildCollectors sessOk cfg = none := by
  have hms : mkSessions sessOk (regionsOf cfg k) = none :=
    mkSessions_eq_none sessOk _ region hmem hf
  cases k with
  | vpcExporter =>
    unfold buildCollectors
    rw [enabledOf] at hen
    rw [regionsOf] at hms
    rw [hen, collectStep_none sessOk _ _ _ hms]
    simp
  | rdsExporter =>
    unfold buildCollectors
    rw [enabledOf] at hen
    rw [regionsOf] at hms
    cases h1 : collectStep sessOk cfg.vpcConfig.base.enabled cfg.vpcConfig.regions
        Collector.vpcExporter ⟨[], []⟩ with
    | none => simp [h1]
    | some s1 => rw [Option.some_bind, hen,
        collectStep_none sessOk _ _ _ hms]; simp
  | ec2Exporter =>
    unfold buildCollectors
    rw [enabledOf] at hen
    rw [regionsOf] at hms
    cases h1 : collectStep sessOk cfg.vpcConfig.base.enabled cfg.vpcConfig.regions
        Collector.vpcExporter ⟨[], []⟩ with
    | none => simp [h1]
    | some s1 =>
      rw [Option.some_bind]
      cases h2 : collectStep sessOk cfg.rdsConfig.base.enabled cfg.rdsConfig.regions
          Collector.rdsExporter s1 with
      | none => simp [h2]
      | some s2 => rw [Option.some_bind, hen,
          collectStep_none sessOk _ _ _ hms]; simp
  | route53Exporter =>
    unfold buildCollectors
    rw [enabledOf] at hen
    rw [regionsOf] at hms
    cases h1 : collectStep sessOk cfg.vpcConfig.base.enabled cfg.vpcConfig.regions
        Collector.vpcExporter ⟨[], []⟩ with
    | none => simp [h1]
    | some s1 =>
      rw [Option.some_bind]
      cases h2 : collectStep sessOk cfg.rdsConfig.base.enabled cfg.rdsConfig.regions
          Collector.rdsExporter s1 with
      | none => simp [h2]
      | some s2 =>
        rw [Option.some_bind]
        cases h3 : collectStep sessOk cfg.ec2Config.base.enabled cfg.ec2Config.regions
            Collector.ec2Exporter s2 with
        | none => simp [h3]
        | some s3 => rw [Option.some_bind, hen,
            collectStep_none sessOk _ _ _ hms]

/-- Claim C9: for every enabled resource kind, failure to construct the
session for any single configured region makes `setupCollectors` panic
(`session.Must`), terminating the whole process before serving begins,
rather than disabling only that kind. -/
theorem C9_failfast_session (sessOk : String → Bool) (fs : String → ReadResult)
    (cf : String) (cfg : Config) (k : Collector) (region : String)
    (hload : loadExporterConfiguration fs cf = .ok cfg)
    (hen : enabledOf cfg k = true) (hmem : region ∈ regionsOf cfg k)
    (hf : sessOk region = false) :
    setupCollectors sessOk fs cf = .panicked := by
  unfold setupCollectors
  rw [hload]
  simp only
  rw [buildCollectors_none sessOk cfg k region hen hmem hf]

/-- A parsed configuration enabling vpc for the single region us-east-1. -/
def vpcOnlyConfig : Config :=
  { zeroConfig with vpcConfig :=
    { base := { enabled := true, interval := none, cacheTTL := none },
      timeout := none,
      regions := ["us-east-1"] } }

/-- Witness for C9: vpc enabled for us-east-1 and a session constructor that
always fails lead to a panic. -/
theorem C9_failfast_session_witness :
    setupCollectors (fun _ => false) (fun _ => .success vpcOnlyConfig true)
      "conf.yaml" = .panicked :=
  C9_failfast_session (fun _ => false) (fun _ => .success vpcOnlyConfig true)
    "conf.yaml" (applyDefaults vpcOnlyConfig) Collector.vpcExporter "us-east-1"
    rfl rfl (by simp [applyDefaults, regionsOf, vpcOnlyConfig]) rfl

/-- Claim C10: for a readable file whose contents fail to unmarshal entirely
(the unmarshal error is discarded and the zero-value `Config` is left
behind), the load succeeds with the defaulted zero configuration, every kind
is disabled, and `setupCollectors` registers no collectors and starts no
loops. -/
theorem C10_unparseable_all_disabled (fs : String → ReadResult) (cf : String)
    (sessOk : String → Bool) (h : fs cf = .success zeroConfig false) :
    loadExporterConfiguration fs cf = .ok (applyDefaults zeroConfig) ∧
    (applyDefaults zeroConfig).rdsConfig.base.enabled = false ∧
    (applyDefaults zeroConfig).vpcConfig.base.enabled = false ∧
    (applyDefaults zeroConfig).route53Config.base.enabled = false ∧
    (applyDefaults zeroConfig).ec2Config.base.enabled = false ∧
    setupCollectors sessOk fs cf = .ok ⟨[], []⟩ := by
  refine ⟨by simp [loadExporterConfiguration, h], rfl, rfl, rfl, rfl, ?_⟩
  unfold setupCollectors loadExporterConfiguration
  rw [h]
  rfl

/-- Witness for C10 at the concrete unparseable file system. -/
theorem C10_unparseable_all_disabled_witness :
    loadExporterConfiguration fsBadParse "conf.yaml"
      = .ok (applyDefaults zeroConfig) ∧
    (applyDefaults zeroConfig).rdsConfig.base.enabled = false ∧
    (applyDefaults zeroConfig).vpcConfig.base.enabled = false ∧
    (applyDefaults zeroConfig).route53Config.base.enabled = false ∧
    (applyDefaults zeroConfig).ec2Config.base.enabled = false ∧
    setupCollectors (fun _ => true) fsBadParse "conf.yaml" = .ok ⟨[], []⟩ :=
  C10_unparseable_all_disabled fsBadParse "conf.yaml" (fun _ => true) rfl

/-- The observable side effects of `run` after a successful collector setup:
registering the two HTTP handlers (main.go lines 217-226) and starting the
HTTP listener (lines 228-239). -/
inductive RunEvent where
  | handleMetrics
  | handleRoot
  | listenAndServe
deriving DecidableEq

/-- Outcome of `run` (main.go lines 189-249): an exit status together with
the side effects performed, or a process-killing panic from
`session.Must`. -/
inductive RunOutcome where
  | exited (code : Int) (events : List RunEvent)
  | panicked
deriving DecidableEq

/-- Choice of the configuration file path (main.go lines 201-206): the
environment variable `AWS_RESOURCE_EXPORTER_CONFIG_FILE` when set non-empty,
else `CONFIG_FILE_PATH`. -/
def configFilePath (envConfigFile : String) : String :=
  if envConfigFile ≠ "" then envConfigFile else CONFIG_FILE_PATH

/-- `run` (main.go lines 189-249).  `envConfigFile` is the value of
`AWS_RESOURCE_EXPORTER_CONFIG_FILE` (empty when unset), `fs` the file
system, `sessOk` the session constructor and `serverFailedFirst` whether the
HTTP server failed before a termination signal arrived (the `select` loop,
lines 241-249). -/
def run (envConfigFile : String) (fs : String → ReadResult)
    (sessOk : String → Bool) (serverFailedFirst : Bool) : RunOutcome :=
  match setupCollectors sessOk fs (configFilePath envConfigFile) with
  | .configError _ => .exited 1 []
  | .panicked => .panicked
  | .ok _ =>
    if serverFailedFirst then
      .exited 1 [RunEvent.handleMetrics, RunEvent.handleRoot, RunEvent.listenAndServe]
    else
      .exited 0 [RunEvent.handleMetrics, RunEvent.handleRoot, RunEvent.listenAndServe]

/-- Claim C7: when `setupCollectors` returns an error (e.g. the config file
is missing), `run` returns exit status 1 having performed no side effects:
no handler registration and no `ListenAndServe`. -/
theorem C7_config_error_exits_one (envConfigFile : String)
    (fs : String → ReadResult) (sessOk : String → Bool) (serverFailedFirst : Bool)
    (msg : String)
    (h : setupCollectors sessOk fs (configFilePath envConfigFile)
      = .configError msg) :
    run envConfigFile fs sessOk serverFailedFirst = .exited 1 [] := by
  unfold run
  rw [h]

/-- Witness for C7: a file system on which every read fails. -/
theorem C7_config_error_exits_one_witness :
    run "" (fun _ => .failure) (fun _ => true) false = .exited 1 [] :=
  C7_config_error_exits_one "" (fun _ => .failure) (fun _ => true) false
    ("Could not load configuration file: " ++ CONFIG_FILE_PATH) rfl

/-- Claim C8: the configuration file path is the environment variable
`AWS_RESOURCE_EXPORTER_CONFIG_FILE` when set to a non-empty value, and the
default path `./aws-resource-exporter-config.yaml` otherwise. -/
theorem C8_config_path (envConfigFile : String) :
    (envConfigFile ≠ "" → configFilePath envConfigFile = envConfigFile) ∧
    (envConfigFile = "" → configFilePath envConfigFile = CONFIG_FILE_PATH) ∧
    CONFIG_FILE_PATH = "./aws-resource-exporter-config.yaml" := by
  refine ⟨fun h => ?_, fun h => ?_, rfl⟩
  · rw [configFilePath, if_pos h]
  · rw [configFilePath, if_neg (by simp [h])]

/-- Witness for C8 at a set and an unset environment variable. -/
theorem C8_config_path_witness :
    ("/etc/exporter.yaml" : String) ≠ "" ∧
    configFilePath "/etc/exporter.yaml" = "/etc/exporter.yaml" ∧
    configFilePath "" = CONFIG_FILE_PATH ∧
    CONFIG_FILE_PATH = "./aws-resource-exporter-config.yaml" :=
  ⟨by decide, (C8_config_path "/etc/exporter.yaml").1 (by decide),
    (C8_config_path "").2.1 rfl, (C8_config_path "").2.2⟩
